import Mathlib

/-!
Shallow embedding of the HashVault dashboard client
(src/client/lib/formatters.ts, src/client/components/pool/BlockVisualizer.tsx,
src/client/pages/Index.tsx) and proofs about its display logic.

Numbers are modelled as rationals; JavaScript `x || d` defaulting is modelled
by `jsOr`; `Number.prototype.toFixed` is modelled by `toFixed` (round to
nearest, half away from zero on the idealised rational value); optional /
possibly `undefined` values are modelled with `Option`.
-/

namespace HashVault

/-- JavaScript `x || d` on an optional number: `undefined`/`null` and `0` are
falsy and yield the default `d`; any other number is returned unchanged. -/
def jsOr (x : Option ℚ) (d : ℚ) : ℚ :=
  match x with
  | none => d
  | some v => if v = 0 then d else v

/-- Left-pad a string with `'0'` up to length `len`. -/
def padZeros (s : String) (len : Nat) : String :=
  String.mk (List.replicate (len - s.length) '0') ++ s

/-- Digit string of a scaled nonnegative value `n = round(q * 10 ^ digits)`,
split into integer part and a zero-padded fractional part. -/
def fixedString (digits : Nat) (n : Nat) : String :=
  if digits = 0 then toString n
  else toString (n / 10 ^ digits) ++ "." ++ padZeros (toString (n % 10 ^ digits)) digits

/-- `q.toFixed(digits)` for `0 ≤ q`: round `q * 10 ^ digits` to the nearest
integer (half up) and print with `digits` decimal places. -/
def toFixedNonneg (digits : Nat) (q : ℚ) : String :=
  fixedString digits (⌊q * 10 ^ digits + 1 / 2⌋).toNat

/-- JavaScript `Number.prototype.toFixed` on the idealised rational value. -/
def toFixed (digits : Nat) (q : ℚ) : String :=
  if q < 0 then "-" ++ toFixedNonneg digits (-q) else toFixedNonneg digits q

/-- src/client/lib/formatters.ts, `formatHashRate`: `'0 H/s'` for falsy input,
otherwise the largest unit in `TH/s, GH/s, MH/s, KH/s, H/s` order whose
threshold the value meets, quotient printed with 2 decimals. -/
def formatHashRate (hash : Option ℚ) : String :=
  match hash with
  | none => "0 H/s"
  | some h =>
    if h = 0 then "0 H/s"
    else if (1000000000000 : ℚ) ≤ h then toFixed 2 (h / 1000000000000) ++ " TH/s"
    else if (1000000000 : ℚ) ≤ h then toFixed 2 (h / 1000000000) ++ " GH/s"
    else if (1000000 : ℚ) ≤ h then toFixed 2 (h / 1000000) ++ " MH/s"
    else if (1000 : ℚ) ≤ h then toFixed 2 (h / 1000) ++ " KH/s"
    else toFixed 2 h ++ " H/s"

/-- The divisor `formatHashRate` selects for a nonzero value: the threshold of
the largest unit the value meets, else `1`. -/
def hashRateDivisor (h : ℚ) : ℚ :=
  if (1000000000000 : ℚ) ≤ h then 1000000000000
  else if (1000000000 : ℚ) ≤ h then 1000000000
  else if (1000000 : ℚ) ≤ h then 1000000
  else if (1000 : ℚ) ≤ h then 1000
  else 1

/-- The unit suffix `formatHashRate` selects for a nonzero value. -/
def hashRateUnit (h : ℚ) : String :=
  if (1000000000000 : ℚ) ≤ h then " TH/s"
  else if (1000000000 : ℚ) ≤ h then " GH/s"
  else if (1000000 : ℚ) ≤ h then " MH/s"
  else if (1000 : ℚ) ≤ h then " KH/s"
  else " H/s"

/-- Insert a comma after every third digit, the input being the digit list in
reverse (least significant first); result is in display order. -/
def commaGroup (cs : List Char) : List Char :=
  ((cs.enum.map fun ic => if ic.1 ≠ 0 ∧ ic.1 % 3 = 0 then [',', ic.2] else [ic.2]).flatten).reverse

/-- `n.toLocaleString()` idealised as comma-separated thousands grouping. -/
def toLocaleString (n : Int) : String :=
  let grouped := String.mk (commaGroup (Nat.repr n.natAbs).toList.reverse)
  if n < 0 then "-" ++ grouped else grouped

/-- src/client/lib/formatters.ts, `formatNumber`: `'0'` for falsy input,
otherwise the integer with locale thousands separators. -/
def formatNumber (num : Option Int) : String :=
  match num with
  | none => "0"
  | some n => if n = 0 then "0" else toLocaleString n

/-- src/client/lib/formatters.ts, exported `formatXMR`: `'0'` for falsy input,
otherwise the atomic value divided by `1e12`, printed with 8 decimals. -/
def formatXMR (atomic : Option ℚ) : String :=
  match atomic with
  | none => "0"
  | some a => if a = 0 then "0" else toFixed 8 (a / 1000000000000)

namespace ChainViz

/-- src/client/lib/formatters.ts, the chain visualization's local `formatXMR`
redeclaration: same as the exported one but with 4 decimals. -/
def formatXMR (atomic : Option ℚ) : String :=
  match atomic with
  | none => "0"
  | some a => if a = 0 then "0" else toFixed 4 (a / 1000000000000)

/-- src/client/lib/formatters.ts, local `formatTimeAgo`: coarse relative age of
a Unix-seconds timestamp `ts` relative to `now` (epoch milliseconds). -/
def formatTimeAgo (now ts : Int) : String :=
  let seconds : Int := ⌊((now : ℚ) - (ts : ℚ) * 1000) / 1000⌋
  if seconds < 60 then toString seconds ++ "s ago"
  else if seconds < 3600 then toString (⌊(seconds : ℚ) / 60⌋ : Int) ++ "m ago"
  else if seconds < 86400 then toString (⌊(seconds : ℚ) / 3600⌋ : Int) ++ "h ago"
  else toString (⌊(seconds : ℚ) / 86400⌋ : Int) ++ "d ago"

/-- The chain visualization's `Block` interface (reward field named `value`). -/
structure Block where
  hash : String
  height : Nat
  ts : Int
  difficulty : Option Nat
  value : ℚ
  fee : ℚ
  effort : Option ℚ
  solo : Option Bool

/-- The four effort colour tiers of the chain visualization. -/
inductive EffortTier where
  | green
  | cyan
  | orange
  | red
deriving DecidableEq

/-- Tier selection as the spec states it: `< 50` green, `[50, 100)` cyan,
`[100, 150)` orange, `≥ 150` red. -/
def effortTier (effort : ℚ) : EffortTier :=
  if effort < 50 then .green
  else if effort < 100 then .cyan
  else if effort < 150 then .orange
  else .red

/-- Gradient class of a tier (the `effortColor` strings of `BlockCard`). -/
def tierGradient : EffortTier → String
  | .green => "from-green-500 to-green-600"
  | .cyan => "from-cyan-500 to-blue-500"
  | .orange => "from-orange-500 to-amber-500"
  | .red => "from-red-500 to-pink-500"

/-- Border class of a tier (the `effortBorder` strings of `BlockCard`). -/
def tierBorder : EffortTier → String
  | .green => "border-green-500/50"
  | .cyan => "border-cyan-500/50"
  | .orange => "border-orange-500/50"
  | .red => "border-red-500/50"

/-- Glow class of a tier (the `effortGlow` strings of `BlockCard`). -/
def tierGlow : EffortTier → String
  | .green => "shadow-green-500/30"
  | .cyan => "shadow-cyan-500/30"
  | .orange => "shadow-orange-500/30"
  | .red => "shadow-red-500/30"

/-- `BlockCard`'s `effortColor` conditional chain, from the source. -/
def effortColor (effort : ℚ) : String :=
  if effort < 50 then "from-green-500 to-green-600"
  else if effort < 100 then "from-cyan-500 to-blue-500"
  else if effort < 150 then "from-orange-500 to-amber-500"
  else "from-red-500 to-pink-500"

/-- `BlockCard`'s `effortBorder` conditional chain, from the source. -/
def effortBorder (effort : ℚ) : String :=
  if effort < 50 then "border-green-500/50"
  else if effort < 100 then "border-cyan-500/50"
  else if effort < 150 then "border-orange-500/50"
  else "border-red-500/50"

/-- `BlockCard`'s `effortGlow` conditional chain, from the source. -/
def effortGlow (effort : ℚ) : String :=
  if effort < 50 then "shadow-green-500/30"
  else if effort < 100 then "shadow-cyan-500/30"
  else if effort < 150 then "shadow-orange-500/30"
  else "shadow-red-500/30"

/-- The three effort-dependent style classes of one `BlockCard`. -/
structure BlockCardStyle where
  gradient : String
  border : String
  glow : String
deriving DecidableEq

/-- `BlockCard`'s style computation: `effort = block.effort || 0`, then the
three conditional chains. -/
def blockCardStyle (b : Block) : BlockCardStyle :=
  let effort := jsOr b.effort 0
  ⟨effortColor effort, effortBorder effort, effortGlow effort⟩

/-- `PendingBlock`'s `estimatedSeconds`:
`difficulty && poolHashRate ? Math.floor(difficulty / poolHashRate) : 0`. -/
def estimatedSeconds (difficulty poolHashRate : ℚ) : Int :=
  if difficulty ≠ 0 ∧ poolHashRate ≠ 0 then ⌊difficulty / poolHashRate⌋ else 0

/-- `PendingBlock`'s `estimatedMinutes = Math.floor(estimatedSeconds / 60)`. -/
def estimatedMinutes (difficulty poolHashRate : ℚ) : Int :=
  ⌊(estimatedSeconds difficulty poolHashRate : ℚ) / 60⌋

/-- Stats bar, latest-height cell:
`blocks?.length && blocks[0].height ? formatNumber(blocks[0].height) : '-'`. -/
def statsLatestHeight (blocks : Option (List Block)) : String :=
  match blocks with
  | none => "-"
  | some [] => "-"
  | some (b :: _) => if b.height ≠ 0 then formatNumber (some (b.height : Int)) else "-"

/-- Stats bar, average-effort expression (before the `%` suffix of the JSX):
guarded by `blocks && blocks.slice(0, 10).length > 0`, then
`(blocks.slice(0, 10).reduce((acc, b) => acc + (b.effort || 0), 0) /
Math.min(blocks.length, 10)).toFixed(1)`, else `'0'`. -/
def statsAvgEffort (blocks : Option (List Block)) : String :=
  match blocks with
  | none => "0"
  | some bs =>
    if 0 < (bs.take 10).length then
      toFixed 1
        ((bs.take 10).foldl (fun acc b => acc + jsOr b.effort 0) 0 / (min bs.length 10 : ℕ))
    else "0"

/-- The average-effort cell as displayed, with the JSX `%` suffix. -/
def statsAvgEffortText (blocks : Option (List Block)) : String :=
  statsAvgEffort blocks ++ "%"

/-- Stats bar, average-reward cell: guarded the same way, then
`formatXMR(blocks.slice(0, 10).reduce((acc, b) => acc + (b.value || 0), 0) /
Math.min(blocks.length, 10))`, else `'0'`. -/
def statsAvgReward (blocks : Option (List Block)) : String :=
  match blocks with
  | none => "0"
  | some bs =>
    if 0 < (bs.take 10).length then
      formatXMR (some
        ((bs.take 10).foldl (fun acc b => acc + jsOr (some b.value) 0) 0 /
          (min bs.length 10 : ℕ)))
    else "0"

/-- Stats bar, last-found cell:
`blocks?.[0] ? formatTimeAgo(blocks[0].ts) : '-'`. -/
def statsLastFound (now : Int) (blocks : Option (List Block)) : String :=
  match blocks with
  | none => "-"
  | some [] => "-"
  | some (b :: _) => formatTimeAgo now b.ts

end ChainViz

namespace Compact

/-- The compact block-feed component's `Block` interface
(src/client/components/pool/BlockVisualizer.tsx; reward field named `reward`). -/
structure FeedBlock where
  hash : String
  height : Nat
  ts : Int
  difficulty : Nat
  reward : ℚ
  fee : ℚ
deriving DecidableEq

/-- The three mutually exclusive bodies the compact feed can render: the
skeleton loading bars, the `No blocks found yet` empty state, or the feed
rows. -/
inductive CompactView where
  | loading
  | feedEmpty
  | feed (rows : List FeedBlock)
deriving DecidableEq

/-- The compact `BlockchainVisual` component's choice of body
(src/client/components/pool/BlockVisualizer.tsx). The `blocks = []` default
parameter replaces an `undefined` prop before `isLoading = blocks ===
undefined` is evaluated; `recentBlocks = blocks?.slice(0, 5) || []`, and the
feed renders when `recentBlocks.length > 0`, else the empty state. -/
def blockVisualizerView (blocksProp : Option (List FeedBlock)) : CompactView :=
  let blocks : Option (List FeedBlock) := some (blocksProp.getD [])
  let recentBlocks := (blocks.getD []).take 5
  let isLoading := blocks.isNone
  if isLoading then CompactView.loading
  else if 0 < recentBlocks.length then CompactView.feed recentBlocks
  else CompactView.feedEmpty

/-- Whether a compact-feed body is the skeleton loading state. -/
def CompactView.showsLoading : CompactView → Bool
  | .loading => true
  | _ => false

end Compact

namespace Dashboard

/-- The three relevant states of one `useQuery` result in `MoneroPool`
(src/client/pages/Index.tsx): still loading, failed, or holding data. -/
inductive QueryState (α : Type) where
  | loading
  | failed
  | success (d : α)

/-- The `data` field of a query result: present only on success. -/
def QueryState.data {α : Type} : QueryState α → Option α
  | .success d => some d
  | _ => none

/-- Whether the query result's `error` field is set. -/
def QueryState.isError {α : Type} : QueryState α → Bool
  | .failed => true
  | _ => false

/-- Raw point of the hashrate-chart endpooint: `ts` epoch ms, `hs` in H/s. -/
structure ChartPoint where
  ts : Int
  hs : ℚ
deriving DecidableEq

/-- Derived chart point: localized HH:MM time string and pool rate in MH/s. -/
structure ChartSeriesPoint where
  time : String
  pool : ℚ
deriving DecidableEq

/-- One raw chart point mapped as in `processedChartData`:
`{time: new Date(point.ts).toLocaleTimeString(...), pool: point.hs / 1e6}`.
The locale-dependent time formatter is abstracted as the parameter `fmt`. -/
def derivePoint (fmt : Int → String) (p : ChartPoint) : ChartSeriesPoint :=
  ⟨fmt p.ts, p.hs / 1000000⟩

/-- `processedChartData = chartData?.map(...).slice(-48) || []`
(src/client/pages/Index.tsx): map each raw point, keep the last 48. -/
def processedChartData (fmt : Int → String) (chartData : Option (List ChartPoint)) :
    List ChartSeriesPoint :=
  match chartData with
  | none => []
  | some l => (l.map (derivePoint fmt)).drop (l.length - 48)

/-- The `config` object of the pool-stats response; only the field the claims
exercise is modelled. -/
structure PoolConfig where
  pplns_fee : Option ℚ
deriving DecidableEq

/-- The pool-stats response; only the part the claims exercise is modelled. -/
structure PoolStats where
  config : Option PoolConfig
deriving DecidableEq

/-- The Pool Configuration panel's fee value:
`poolData?.config?.pplns_fee || 0.9` (src/client/pages/Index.tsx). -/
def displayedPoolFee (poolData : Option PoolStats) : ℚ :=
  jsOr (Option.bind (Option.bind poolData PoolStats.config) PoolConfig.pplns_fee) (9 / 10)

/-- The chart panel body: the rendered area chart when
`processedChartData.length > 0`, otherwise the skeleton placeholder. -/
inductive ChartSection where
  | rendered (points : List ChartSeriesPoint)
  | placeholder
deriving DecidableEq

/-- What `MoneroPool` returns: the full-page error view when the
pool-statistics query errored, else the dashboard (tracking the claim-relevant
sections: chart panel body, compact blocks panel body, displayed pool fee). -/
inductive PageView where
  | errorView
  | dashboard (chart : ChartSection) (blocksPanel : Compact.CompactView) (poolFee : ℚ)
deriving DecidableEq

/-- `MoneroPool`'s render decision (src/client/pages/Index.tsx): `if (error)`
— the pool-statistics query's error alone — returns the centered error view
with the retry button; otherwise the page renders, the chart section showing
the chart only when the derived series is non-empty, and the blocks panel
being the compact `BlockchainVisual` applied to the blocks query's data. -/
def renderPage (fmt : Int → String) (poolQ : QueryState PoolStats)
    (chartQ : QueryState (List ChartPoint))
    (blocksQ : QueryState (List Compact.FeedBlock)) : PageView :=
  let processed := processedChartData fmt chartQ.data
  if poolQ.isError then PageView.errorView
  else
    PageView.dashboard
      (if 0 < processed.length then ChartSection.rendered processed
       else ChartSection.placeholder)
      (Compact.blockVisualizerView blocksQ.data)
      (displayedPoolFee poolQ.data)

end Dashboard

/-- Sample blocks for the aggregate-stats example: efforts `10, 20, 30` and
values `1e12, 2e12, 3e12`. -/
def exampleBlocks : List ChainViz.Block :=
  [⟨"b1", 3000002, 0, none, 1000000000000, 0, some 10, none⟩,
   ⟨"b2", 3000001, 0, none, 2000000000000, 0, some 20, none⟩,
   ⟨"b3", 3000000, 0, none, 3000000000000, 0, some 30, none⟩]

/-! Helper lemmas shared by the claim theorems. -/

/-- Evaluate `toFixed` once the rounded scaled value is known: for `0 ≤ q`
with `⌊q * 10 ^ digits + 1 / 2⌋ = n`, the output is `fixedString digits n`,
which is pure natural-number string rendering. -/
theorem toFixed_eq (digits : Nat) (q : ℚ) (n : Nat) (hq : 0 ≤ q)
    (h : ⌊q * 10 ^ digits + 1 / 2⌋ = (n : ℤ)) : toFixed digits q = fixedString digits n := by
  unfold toFixed toFixedNonneg
  rw [if_neg (not_lt.mpr hq), h, Int.toNat_natCast]

/-- A left fold accumulating `f` over a list is the initial value plus the sum
of the mapped list. -/
theorem foldl_add_map {α : Type} (f : α → ℚ) :
    ∀ (l : List α) (init : ℚ), l.foldl (fun acc b => acc + f b) init = init + (l.map f).sum := by
  intro l
  induction l with
  | nil => intro init; simp
  | cons a t ih => intro init; simp [ih, add_assoc]

/-- Claim C3: `formatHashRate` returns `0 H/s` for absent or zero input; for
every other input it selects the largest unit whose threshold the value meets,
in order `10^12` TH/s, `10^9` GH/s, `10^6` MH/s, `10^3` KH/s, else raw H/s,
divides by that threshold and formats with exactly 2 decimals; whenever a
larger unit's threshold is met the displayed magnitude is in `[1, 1000)`;
`999 → 999.00 H/s`, `1000 → 1.00 KH/s`, `2500000 → 2.50 MH/s`,
`1500000000000 → 1.50 TH/s`. -/
theorem formatHashRate_spec :
    formatHashRate none = "0 H/s" ∧
    formatHashRate (some 0) = "0 H/s" ∧
    formatHashRate (some 999) = "999.00 H/s" ∧
    formatHashRate (some 1000) = "1.00 KH/s" ∧
    formatHashRate (some 2500000) = "2.50 MH/s" ∧
    formatHashRate (some 1500000000000) = "1.50 TH/s" ∧
    ∀ x : ℚ, 0 < x →
      formatHashRate (some x) = toFixed 2 (x / hashRateDivisor x) ++ hashRateUnit x ∧
      (1000 ≤ x → 1 ≤ x / hashRateDivisor x) ∧
      (hashRateDivisor x < 1000000000000 → x / hashRateDivisor x < 1000) := by
  have t999 : toFixed 2 (999 : ℚ) = "999.00" := by
    rw [toFixed_eq 2 999 99900 (by norm_num) (by norm_num)]; rfl
  have t1 : toFixed 2 ((1000 : ℚ) / 1000) = "1.00" := by
    rw [toFixed_eq 2 _ 100 (by norm_num) (by norm_num)]; rfl
  have t25 : toFixed 2 ((2500000 : ℚ) / 1000000) = "2.50" := by
    rw [toFixed_eq 2 _ 250 (by norm_num) (by norm_num)]; rfl
  have t15 : toFixed 2 ((1500000000000 : ℚ) / 1000000000000) = "1.50" := by
    rw [toFixed_eq 2 _ 150 (by norm_num) (by norm_num)]; rfl
  refine ⟨rfl, by norm_num [formatHashRate], ?_, ?_, ?_, ?_, ?_⟩
  · simp only [formatHashRate]
    rw [if_neg (by norm_num), if_neg (by norm_num), if_neg (by norm_num),
      if_neg (by norm_num), if_neg (by norm_num), t999]
    rfl
  · simp only [formatHashRate]
    rw [if_neg (by norm_num), if_neg (by norm_num), if_neg (by norm_num),
      if_neg (by norm_num), if_pos (by norm_num), t1]
    rfl
  · simp only [formatHashRate]
    rw [if_neg (by norm_num), if_neg (by norm_num), if_neg (by norm_num),
      if_pos (by norm_num), t25]
    rfl
  · simp only [formatHashRate]
    rw [if_neg (by norm_num), if_pos (by norm_num), t15]
    rfl
  · intro x hx
    refine ⟨?_, ?_, ?_⟩
    · simp only [formatHashRate, hashRateDivisor, hashRateUnit]
      rw [if_neg hx.ne']
      split_ifs <;> first | rfl | rw [div_one]
    · intro h1000
      unfold hashRateDivisor
      split_ifs with h1 h2 h3
      · exact (one_le_div (by norm_num)).mpr h1
      · exact (one_le_div (by norm_num)).mpr h2
      · exact (one_le_div (by norm_num)).mpr h3
      · exact (one_le_div (by norm_num)).mpr h1000
    · intro hd
      unfold hashRateDivisor at hd ⊢
      split_ifs at hd ⊢ with h1 h2 h3 h4
      · norm_num at hd
      · rw [div_lt_iff₀ (by norm_num)]; push_neg at h1; linarith
      · rw [div_lt_iff₀ (by norm_num)]; push_neg at h2; linarith
      · rw [div_lt_iff₀ (by norm_num)]; push_neg at h3; linarith
      · rw [div_one]; push_neg at h4; linarith

/-- Witness for C3 at `x = 1000`. -/
theorem formatHashRate_spec_witness :
    (0 : ℚ) < 1000 ∧ (1000 : ℚ) ≤ 1000 ∧ 1 ≤ (1000 : ℚ) / hashRateDivisor 1000 :=
  ⟨by norm_num, by norm_num,
    (formatHashRate_spec.2.2.2.2.2.2 1000 (by norm_num)).2.1 (by norm_num)⟩

/-- Claim C4: both `formatXMR` implementations return `0` for absent or zero
input and otherwise divide by `10^12` and print a fixed number of decimals:
the exported dashboard/block-feed version with exactly 8, the chain
visualization's local version with exactly 4; `formatXMR(10^12)` is
`1.00000000` at the 8-decimal site and `1.0000` at the 4-decimal site. -/
theorem formatXMR_spec :
    formatXMR none = "0" ∧
    formatXMR (some 0) = "0" ∧
    ChainViz.formatXMR none = "0" ∧
    ChainViz.formatXMR (some 0) = "0" ∧
    formatXMR (some 1000000000000) = "1.00000000" ∧
    ChainViz.formatXMR (some 1000000000000) = "1.0000" ∧
    ∀ a : ℚ, a ≠ 0 →
      formatXMR (some a) = toFixed 8 (a / 1000000000000) ∧
      ChainViz.formatXMR (some a) = toFixed 4 (a / 1000000000000) := by
  have t8 : toFixed 8 ((1000000000000 : ℚ) / 1000000000000) = "1.00000000" := by
    rw [toFixed_eq 8 _ 100000000 (by norm_num) (by norm_num)]; rfl
  have t4 : toFixed 4 ((1000000000000 : ℚ) / 1000000000000) = "1.0000" := by
    rw [toFixed_eq 4 _ 10000 (by norm_num) (by norm_num)]; rfl
  refine ⟨rfl, by norm_num [formatXMR], rfl, by norm_num [ChainViz.formatXMR], ?_, ?_, ?_⟩
  · simp only [formatXMR]
    rw [if_neg (by norm_num), t8]
  · simp only [ChainViz.formatXMR]
    rw [if_neg (by norm_num), t4]
  · intro a ha
    constructor
    · simp only [formatXMR]; rw [if_neg ha]
    · simp only [ChainViz.formatXMR]; rw [if_neg ha]

/-- Witness for C4 at `a = 10^12`. -/
theorem formatXMR_spec_witness :
    (1000000000000 : ℚ) ≠ 0 ∧
    formatXMR (some 1000000000000) = toFixed 8 ((1000000000000 : ℚ) / 1000000000000) :=
  ⟨by norm_num, (formatXMR_spec.2.2.2.2.2.2 1000000000000 (by norm_num)).1⟩

/-- Claim C5: for every block the effort tier computed from
`effort = block.effort || 0` is closed-open at each boundary (`< 50` green,
`[50, 100)` cyan, `[100, 150)` orange, `≥ 150` red; `49.999` green, `50` cyan,
`99.999` cyan, `100` orange, `149.999` orange, `150` red), and this same tier
selects the card's border colour, fill gradient and glow. -/
theorem effortTier_spec :
    (∀ b : ChainViz.Block,
      ChainViz.blockCardStyle b =
        ⟨ChainViz.tierGradient (ChainViz.effortTier (jsOr b.effort 0)),
         ChainViz.tierBorder (ChainViz.effortTier (jsOr b.effort 0)),
         ChainViz.tierGlow (ChainViz.effortTier (jsOr b.effort 0))⟩) ∧
    (∀ e : ℚ,
      (ChainViz.effortTier e = ChainViz.EffortTier.green ↔ e < 50) ∧
      (ChainViz.effortTier e = ChainViz.EffortTier.cyan ↔ 50 ≤ e ∧ e < 100) ∧
      (ChainViz.effortTier e = ChainViz.EffortTier.orange ↔ 100 ≤ e ∧ e < 150) ∧
      (ChainViz.effortTier e = ChainViz.EffortTier.red ↔ 150 ≤ e)) ∧
    ChainViz.effortTier 49.999 = ChainViz.EffortTier.green ∧
    ChainViz.effortTier 50 = ChainViz.EffortTier.cyan ∧
    ChainViz.effortTier 99.999 = ChainViz.EffortTier.cyan ∧
    ChainViz.effortTier 100 = ChainViz.EffortTier.orange ∧
    ChainViz.effortTier 149.999 = ChainViz.EffortTier.orange ∧
    ChainViz.effortTier 150 = ChainViz.EffortTier.red := by
  refine ⟨?_, ?_, ?_, ?_, ?_, ?_, ?_, ?_⟩
  · intro b
    simp only [ChainViz.blockCardStyle, ChainViz.effortColor, ChainViz.effortBorder,
      ChainViz.effortGlow, ChainViz.effortTier]
    split_ifs <;> rfl
  · intro e
    unfold ChainViz.effortTier
    split_ifs with h1 h2 h3
    · exact ⟨iff_of_true rfl h1,
        iff_of_false (by decide) (fun hc => by linarith [hc.1]),
        iff_of_false (by decide) (fun hc => by linarith [hc.1]),
        iff_of_false (by decide) (fun hc => by linarith)⟩
    · exact ⟨iff_of_false (by decide) h1,
        iff_of_true rfl ⟨not_lt.mp h1, h2⟩,
        iff_of_false (by decide) (fun hc => by linarith [hc.1]),
        iff_of_false (by decide) (fun hc => by linarith)⟩
    · exact ⟨iff_of_false (by decide) h1,
        iff_of_false (by decide) (fun hc => h2 hc.2),
        iff_of_true rfl ⟨not_lt.mp h2, h3⟩,
        iff_of_false (by decide) (fun hc => by linarith)⟩
    · exact ⟨iff_of_false (by decide) h1,
        iff_of_false (by decide) (fun hc => h2 hc.2),
        iff_of_false (by decide) (fun hc => h3 hc.2),
        iff_of_true rfl (not_lt.mp h3)⟩
  · unfold ChainViz.effortTier; rw [if_pos (by norm_num)]
  · unfold ChainViz.effortTier; rw [if_neg (by norm_num), if_pos (by norm_num)]
  · unfold ChainViz.effortTier; rw [if_neg (by norm_num), if_pos (by norm_num)]
  · unfold ChainViz.effortTier
    rw [if_neg (by norm_num), if_neg (by norm_num), if_pos (by norm_num)]
  · unfold ChainViz.effortTier
    rw [if_neg (by norm_num), if_neg (by norm_num), if_pos (by norm_num)]
  · unfold ChainViz.effortTier
    rw [if_neg (by norm_num), if_neg (by norm_num), if_neg (by norm_num)]

/-- Claim C6: the pending block's `estimatedSeconds` is
`floor(difficulty / poolHashRate)` when both inputs are positive and `0`
otherwise (no division attempted at zero hash rate); the displayed minutes are
`floor(estimatedSeconds / 60)`; `600 / 10` gives `60` seconds shown as `1`
minute. -/
theorem pendingBlock_eta_spec :
    (∀ d p : ℚ, 0 ≤ d → 0 ≤ p →
      (0 < d ∧ 0 < p → ChainViz.estimatedSeconds d p = ⌊d / p⌋) ∧
      (¬(0 < d ∧ 0 < p) → ChainViz.estimatedSeconds d p = 0)) ∧
    ChainViz.estimatedSeconds 600 10 = 60 ∧
    ChainViz.estimatedMinutes 600 10 = 1 ∧
    ChainViz.estimatedSeconds 600 0 = 0 ∧
    ChainViz.estimatedMinutes 600 0 = 0 := by
  have h60 : ChainViz.estimatedSeconds 600 10 = 60 := by
    unfold ChainViz.estimatedSeconds
    rw [if_pos ⟨by norm_num, by norm_num⟩]
    norm_num
  have h0 : ChainViz.estimatedSeconds 600 0 = 0 := by
    unfold ChainViz.estimatedSeconds
    exact if_neg (fun hc => hc.2 rfl)
  refine ⟨?_, h60, ?_, h0, ?_⟩
  · intro d p hd hp
    constructor
    · intro hpos
      unfold ChainViz.estimatedSeconds
      exact if_pos ⟨hpos.1.ne', hpos.2.ne'⟩
    · intro hn
      unfold ChainViz.estimatedSeconds
      refine if_neg (fun hc => hn ?_)
      exact ⟨lt_of_le_of_ne hd (Ne.symm hc.1), lt_of_le_of_ne hp (Ne.symm hc.2)⟩
  · unfold ChainViz.estimatedMinutes
    rw [h60]
    norm_num
  · unfold ChainViz.estimatedMinutes
    rw [h0]
    norm_num

/-- Witness for C6 at `difficulty = 600`, `poolHashRate = 10`. -/
theorem pendingBlock_eta_spec_witness :
    (0 : ℚ) ≤ 600 ∧ (0 : ℚ) ≤ 10 ∧ (0 < (600 : ℚ) ∧ 0 < (10 : ℚ)) ∧
    ChainViz.estimatedSeconds 600 10 = ⌊(600 : ℚ) / 10⌋ :=
  ⟨by norm_num, by norm_num, ⟨by norm_num, by norm_num⟩,
    (pendingBlock_eta_spec.1 600 10 (by norm_num) (by norm_num)).1
      ⟨by norm_num, by norm_num⟩⟩

/-- Claim C7: for every non-empty block sequence the aggregate stats row is
computed over the `min(length, 10)` most-recent blocks: displayed average
effort is the sum of each sampled block's effort (default 0) divided by the
sample count, to one decimal, and displayed average reward is the sum of the
sampled `value` fields divided by the sample count through the 4-decimal
`formatXMR`; efforts `[10, 20, 30]` with values `[1e12, 2e12, 3e12]` give
`20.0` and `formatXMR(2e12)`. -/
theorem chainStats_average_spec :
    (∀ bs : List ChainViz.Block, bs ≠ [] →
      ChainViz.statsAvgEffort (some bs) =
        toFixed 1
          (((bs.take 10).map fun b => jsOr b.effort 0).sum / ((min bs.length 10 : ℕ) : ℚ)) ∧
      ChainViz.statsAvgReward (some bs) =
        ChainViz.formatXMR (some
          (((bs.take 10).map fun b => jsOr (some b.value) 0).sum /
            ((min bs.length 10 : ℕ) : ℚ))) ∧
      (bs.take 10).length = min bs.length 10) ∧
    ChainViz.statsAvgEffort (some exampleBlocks) = "20.0" ∧
    ChainViz.statsAvgReward (some exampleBlocks) = ChainViz.formatXMR (some 2000000000000) ∧
    ChainViz.formatXMR (some 2000000000000) = "2.0000" := by
  have hguard : ∀ bs : List ChainViz.Block, bs ≠ [] → 0 < (bs.take 10).length := by
    intro bs hbs
    rw [List.length_take]
    have := List.length_pos.mpr hbs
    omega
  refine ⟨?_, ?_, ?_, ?_⟩
  · intro bs hbs
    refine ⟨?_, ?_, ?_⟩
    · simp only [ChainViz.statsAvgEffort]
      rw [if_pos (hguard bs hbs), foldl_add_map, zero_add]
    · simp only [ChainViz.statsAvgReward]
      rw [if_pos (hguard bs hbs), foldl_add_map, zero_add]
    · rw [List.length_take, Nat.min_comm]
  · simp only [ChainViz.statsAvgEffort, exampleBlocks]
    rw [if_pos (by decide)]
    have harg :
        (((⟨"b1", 3000002, 0, none, 1000000000000, 0, some 10, none⟩ : ChainViz.Block) ::
          [⟨"b2", 3000001, 0, none, 2000000000000, 0, some 20, none⟩,
           ⟨"b3", 3000000, 0, none, 3000000000000, 0, some 30, none⟩]).take 10).foldl
            (fun acc b => acc + jsOr b.effort 0) 0 = 60 := by
      simp [List.take, List.foldl, jsOr]
      norm_num
    rw [harg]
    have hm : (min
        ((⟨"b1", 3000002, 0, none, 1000000000000, 0, some 10, none⟩ : ChainViz.Block) ::
          [⟨"b2", 3000001, 0, none, 2000000000000, 0, some 20, none⟩,
           ⟨"b3", 3000000, 0, none, 3000000000000, 0, some 30, none⟩]).length 10 : ℕ) = 3 := rfl
    rw [hm]
    have : (60 : ℚ) / ((3 : ℕ) : ℚ) = 20 := by norm_num
    rw [this, toFixed_eq 1 20 200 (by norm_num) (by norm_num)]
    rfl
  · simp only [ChainViz.statsAvgReward, exampleBlocks]
    rw [if_pos (by decide)]
    have harg :
        (((⟨"b1", 3000002, 0, none, 1000000000000, 0, some 10, none⟩ : ChainViz.Block) ::
          [⟨"b2", 3000001, 0, none, 2000000000000, 0, some 20, none⟩,
           ⟨"b3", 3000000, 0, none, 3000000000000, 0, some 30, none⟩]).take 10).foldl
            (fun acc b => acc + jsOr (some b.value) 0) 0 = 6000000000000 := by
      simp [List.take, List.foldl, jsOr]
      norm_num
    rw [harg]
    have hm : (min
        ((⟨"b1", 3000002, 0, none, 1000000000000, 0, some 10, none⟩ : ChainViz.Block) ::
          [⟨"b2", 3000001, 0, none, 2000000000000, 0, some 20, none⟩,
           ⟨"b3", 3000000, 0, none, 3000000000000, 0, some 30, none⟩]).length 10 : ℕ) = 3 := rfl
    rw [hm]
    have : (6000000000000 : ℚ) / ((3 : ℕ) : ℚ) = 2000000000000 := by norm_num
    rw [this]
  · simp only [ChainViz.formatXMR]
    rw [if_neg (by norm_num),
      show (2000000000000 : ℚ) / 1000000000000 = 2 by norm_num,
      toFixed_eq 4 2 20000 (by norm_num) (by norm_num)]
    rfl

/-- Witness for C7 at the three-block example list. -/
theorem chainStats_average_spec_witness :
    exampleBlocks ≠ [] ∧ (exampleBlocks.take 10).length = min exampleBlocks.length 10 := by
  have hne : exampleBlocks ≠ [] := by unfold exampleBlocks; exact List.cons_ne_nil _ _
  exact ⟨hne, (chainStats_average_spec.1 exampleBlocks hne).2.2⟩

/-- Claim C8: for an empty or absent block sequence the stats row shows dashes
for latest height and last-found age and `0%` / `0` for the two averages, and
every division by the sample count sits behind the explicit length guard,
whose truth forces a nonzero divisor. -/
theorem chainStats_empty_spec :
    ChainViz.statsLatestHeight none = "-" ∧
    ChainViz.statsLatestHeight (some []) = "-" ∧
    (∀ now : Int,
      ChainViz.statsLastFound now none = "-" ∧ ChainViz.statsLastFound now (some []) = "-") ∧
    ChainViz.statsAvgEffortText none = "0%" ∧
    ChainViz.statsAvgEffortText (some []) = "0%" ∧
    ChainViz.statsAvgReward none = "0" ∧
    ChainViz.statsAvgReward (some []) = "0" ∧
    ∀ bs : List ChainViz.Block,
      0 < (bs.take 10).length → ((min bs.length 10 : ℕ) : ℚ) ≠ 0 := by
  refine ⟨rfl, rfl, fun now => ⟨rfl, rfl⟩, rfl, rfl, rfl, rfl, ?_⟩
  intro bs h
  rw [List.length_take] at h
  have hpos : 0 < min bs.length 10 := by omega
  exact_mod_cast hpos.ne'

/-- Witness for C8 at a one-block sequence. -/
theorem chainStats_empty_spec_witness :
    0 < (([⟨"w", 1, 0, none, 0, 0, none, none⟩] : List ChainViz.Block).take 10).length ∧
    ((min ([⟨"w", 1, 0, none, 0, 0, none, none⟩] : List ChainViz.Block).length 10 : ℕ) : ℚ) ≠
      0 := by
  obtain ⟨-, -, -, -, -, -, -, hdiv⟩ := chainStats_empty_spec
  exact ⟨by decide, hdiv _ (by decide)⟩

/-- Claim C1 evaluated on the code: an undefined block sequence renders the
`No blocks found yet` empty state, not the loading bars — the `blocks = []`
default parameter replaces `undefined` before `blocks === undefined` is
tested, so the loading body is unreachable for every input. -/
theorem compactFeed_undefined_renders_empty :
    Compact.blockVisualizerView none = Compact.CompactView.feedEmpty ∧
    Compact.blockVisualizerView (some []) = Compact.CompactView.feedEmpty ∧
    (∀ blocksProp, (Compact.blockVisualizerView blocksProp).showsLoading = false) ∧
    (∀ blocksProp,
      Compact.blockVisualizerView blocksProp =
        Compact.blockVisualizerView (some (blocksProp.getD []))) := by
  refine ⟨rfl, rfl, ?_, ?_⟩
  · intro bp
    simp only [Compact.blockVisualizerView, Option.isNone_some, if_false,
      Bool.false_eq_true]
    split_ifs <;> rfl
  · intro bp
    cases bp <;> rfl

/-- Claim C2: the dashboard renders the full-page error view exactly when the
pool-statistics query errored; a chart-query error alone leaves the page
rendered with the chart section showing its placeholder, and a blocks-query
error alone leaves the compact blocks panel in its empty state. -/
theorem dashboard_error_gating :
    ∀ (fmt : Int → String) (pq : Dashboard.QueryState Dashboard.PoolStats)
      (cq : Dashboard.QueryState (List Dashboard.ChartPoint))
      (bq : Dashboard.QueryState (List Compact.FeedBlock)),
      (Dashboard.renderPage fmt pq cq bq = Dashboard.PageView.errorView ↔
        pq.isError = true) ∧
      (pq.isError = false → cq.isError = true →
        Dashboard.renderPage fmt pq cq bq =
          Dashboard.PageView.dashboard Dashboard.ChartSection.placeholder
            (Compact.blockVisualizerView bq.data) (Dashboard.displayedPoolFee pq.data)) ∧
      (pq.isError = false → bq.isError = true →
        Dashboard.renderPage fmt pq cq bq =
          Dashboard.PageView.dashboard
            (if 0 < (Dashboard.processedChartData fmt cq.data).length then
              Dashboard.ChartSection.rendered (Dashboard.processedChartData fmt cq.data)
             else Dashboard.ChartSection.placeholder)
            Compact.CompactView.feedEmpty (Dashboard.displayedPoolFee pq.data)) := by
  intro fmt pq cq bq
  refine ⟨?_, ?_, ?_⟩
  · cases pq <;> simp [Dashboard.renderPage, Dashboard.QueryState.isError]
  · intro hp hc
    cases cq <;> simp [Dashboard.QueryState.isError] at hc
    cases pq <;> simp [Dashboard.QueryState.isError] at hp <;>
      simp [Dashboard.renderPage, Dashboard.QueryState.isError, Dashboard.QueryState.data,
        Dashboard.processedChartData]
  · intro hp hb
    cases bq <;> simp [Dashboard.QueryState.isError] at hb
    cases pq <;> simp [Dashboard.QueryState.isError] at hp <;>
      simp [Dashboard.renderPage, Dashboard.QueryState.isError, Dashboard.QueryState.data,
        Compact.blockVisualizerView]

/-- Witness for C2: pool stats loaded, chart query failed. -/
theorem dashboard_error_gating_witness :
    (Dashboard.QueryState.success (Dashboard.PoolStats.mk none)).isError = false ∧
    (Dashboard.QueryState.failed : Dashboard.QueryState (List Dashboard.ChartPoint)).isError =
      true ∧
    Dashboard.renderPage (fun _ => "") (Dashboard.QueryState.success (Dashboard.PoolStats.mk none))
      Dashboard.QueryState.failed Dashboard.QueryState.failed =
      Dashboard.PageView.dashboard Dashboard.ChartSection.placeholder
        (Compact.blockVisualizerView
          (Dashboard.QueryState.failed : Dashboard.QueryState (List Compact.FeedBlock)).data)
        (Dashboard.displayedPoolFee
          (Dashboard.QueryState.success (Dashboard.PoolStats.mk none)).data) := by
  refine ⟨rfl, rfl, ?_⟩
  exact (dashboard_error_gating (fun _ => "") _ _ _).2.1 rfl rfl

/-- Claim C9: the derived chart series maps each raw point to its localized
time string and `hs / 1e6`, keeping only the most recent 48 points: a
100-point series yields exactly the last 48 in supplied order, and a series of
at most 48 points is kept whole. -/
theorem chartSeries_spec :
    ∀ (fmt : Int → String) (raw : List Dashboard.ChartPoint),
      (∀ p, (Dashboard.derivePoint fmt p).pool = p.hs / 1000000) ∧
      (raw.length = 100 →
        Dashboard.processedChartData fmt (some raw) =
          (raw.drop 52).map (Dashboard.derivePoint fmt) ∧
        (Dashboard.processedChartData fmt (some raw)).length = 48) ∧
      (raw.length ≤ 48 →
        Dashboard.processedChartData fmt (some raw) = raw.map (Dashboard.derivePoint fmt)) := by
  intro fmt raw
  refine ⟨fun p => rfl, ?_, ?_⟩
  · intro h100
    constructor
    · simp only [Dashboard.processedChartData]
      rw [h100, List.map_drop]
    · simp [Dashboard.processedChartData, h100]
  · intro h48
    simp only [Dashboard.processedChartData]
    rw [Nat.sub_eq_zero_of_le h48, List.drop_zero]

/-- Witness for C9 at a concrete 100-point series. -/
theorem chartSeries_spec_witness :
    ((List.range 100).map fun i => Dashboard.ChartPoint.mk (Int.ofNat i) 1).length = 100 ∧
    (Dashboard.processedChartData (fun _ => "")
      (some ((List.range 100).map fun i => Dashboard.ChartPoint.mk (Int.ofNat i) 1))).length =
      48 := by
  have hlen : ((List.range 100).map fun i => Dashboard.ChartPoint.mk (Int.ofNat i) 1).length = 100 := by
    rw [List.length_map, List.length_range]
  exact ⟨hlen, ((chartSeries_spec (fun _ => "") _).2.1 hlen).2⟩

/-- Claim C10: a `pplns_fee` present and equal to `0` displays as `0.9`,
identically to the absent-field case, because the `|| 0.9` default applies to
every falsy value; a nonzero fee displays as itself. -/
theorem poolFee_zero_spec :
    Dashboard.displayedPoolFee
        (some (Dashboard.PoolStats.mk (some (Dashboard.PoolConfig.mk (some 0))))) = 9 / 10 ∧
    Dashboard.displayedPoolFee
        (some (Dashboard.PoolStats.mk (some (Dashboard.PoolConfig.mk none)))) = 9 / 10 ∧
    Dashboard.displayedPoolFee (some (Dashboard.PoolStats.mk none)) = 9 / 10 ∧
    Dashboard.displayedPoolFee none = 9 / 10 ∧
    Dashboard.displayedPoolFee
        (some (Dashboard.PoolStats.mk (some (Dashboard.PoolConfig.mk (some 0))))) =
      Dashboard.displayedPoolFee
        (some (Dashboard.PoolStats.mk (some (Dashboard.PoolConfig.mk none)))) ∧
    ∀ f : ℚ, f ≠ 0 →
      Dashboard.displayedPoolFee
          (some (Dashboard.PoolStats.mk (some (Dashboard.PoolConfig.mk (some f))))) = f := by
  refine ⟨?_, rfl, rfl, rfl, ?_, ?_⟩
  · simp [Dashboard.displayedPoolFee, jsOr]
  · simp [Dashboard.displayedPoolFee, jsOr]
  · intro f hf
    simp [Dashboard.displayedPoolFee, jsOr, hf]

/-- Witness for C10 at `pplns_fee = 1`. -/
theorem poolFee_zero_spec_witness :
    (1 : ℚ) ≠ 0 ∧
    Dashboard.displayedPoolFee
        (some (Dashboard.PoolStats.mk (some (Dashboard.PoolConfig.mk (some 1))))) = 1 :=
  ⟨by norm_num, poolFee_zero_spec.2.2.2.2.2 1 (by norm_num)⟩

end HashVault
